import Mathlib

/-
Verification development for the sea-ondo repository (src/streamlit_app.py).

The program is a single request -> parse -> display pipeline:
  - parse_kma_data turns the raw API response text into a table by
    dropping comment lines and reading the rest with
    pd.read_csv(header=None, delim_whitespace=True, names=<24 names>);
  - the button handler selects the TM and TW columns, coerces them with
    pd.to_datetime(format = the 12-digit pattern, errors = coerce) and
    pd.to_numeric(errors = coerce), drops rows with missing values, and
    renders chart plus table, with explicit display states for a missing
    auth key, a non-200 response, a network failure, an empty parse and
    an empty projection.

The embedding below models the pandas calls at exactly the option sets the
source uses.  Text is treated as LF-separated (the witnesses only use LF).
Numeric cell values are carried as exact decimal pairs (mantissa and a
power-of-ten exponent); the pipeline never computes with temperatures, it
only parses, compares and drops them, so no float rounding is observable.
-/

namespace SeaOndo

/-- Exact decimal value: `num * 10 ^ exp`.  Stands in for the float64 value
a parsed numeric literal denotes; the pipeline only tests parse success and
carries the value, so the exact-decimal embedding is adequate. -/
structure Dec where
  num : Int
  exp : Int
  deriving DecidableEq

/-- Value of the water-temperature column after pd.to_numeric: a finite
number, or one of the two infinities (which to_numeric produces for
infinity tokens and which dropna does not remove). -/
inductive TwVal where
  | fin (v : Dec)
  | pinf
  | ninf
  deriving DecidableEq

/-- True exactly on finite numeric values. -/
def TwVal.finite : TwVal → Bool
  | .fin _ => true
  | _ => false

/-- One cell of the DataFrame produced by read_csv: missing (NaN), a raw
string (object column), an integer (int64 column) or a float (float64
column, carried as an exact decimal). -/
inductive Cell where
  | na
  | s (v : String)
  | i (v : Int)
  | f (v : Dec)
  deriving DecidableEq

/-- True exactly on raw-string cells. -/
def Cell.isStr : Cell → Bool
  | .s _ => true
  | _ => false

/-- A parsed observation timestamp (what pd.to_datetime returns for the
fixed 12-digit pattern). -/
structure DateTime where
  year : Nat
  month : Nat
  day : Nat
  hour : Nat
  minute : Nat
  deriving DecidableEq

/- ## Token-level parsing -/

/-- Value of a digit string, most significant first. -/
def digitsToNat (l : List Char) : Nat := l.foldl (fun a c => a * 10 + (c.toNat - 48)) 0

/-- Integer token in the form the pandas readers accept: optional sign then
one or more digits. -/
def parseIntTok (s : String) : Option Int :=
  match s.data with
  | [] => none
  | '-' :: r => if !r.isEmpty && r.all Char.isDigit then some (-(Int.ofNat (digitsToNat r))) else none
  | '+' :: r => if !r.isEmpty && r.all Char.isDigit then some (Int.ofNat (digitsToNat r)) else none
  | l => if l.all Char.isDigit then some (Int.ofNat (digitsToNat l)) else none

/-- Exponent part of a float literal, after the e or E. -/
def parseExpPart (l : List Char) : Option Int :=
  match l with
  | '+' :: r => if !r.isEmpty && r.all Char.isDigit then some (Int.ofNat (digitsToNat r)) else none
  | '-' :: r => if !r.isEmpty && r.all Char.isDigit then some (-(Int.ofNat (digitsToNat r))) else none
  | l => if !l.isEmpty && l.all Char.isDigit then some (Int.ofNat (digitsToNat l)) else none

/-- Unsigned float literal: digits, optional dot and fraction digits (at
least one digit overall), optional exponent.  Mirrors the strtod-style
parser pandas uses for unquoted tokens. -/
def parseFloatCore (l : List Char) : Option Dec :=
  let ip := l.takeWhile Char.isDigit
  let r1 := l.dropWhile Char.isDigit
  match r1 with
  | [] => if ip.isEmpty then none else some ⟨Int.ofNat (digitsToNat ip), 0⟩
  | '.' :: r2 =>
    let fp := r2.takeWhile Char.isDigit
    let r3 := r2.dropWhile Char.isDigit
    if ip.isEmpty && fp.isEmpty then none
    else
      let mantissa : Int := Int.ofNat (digitsToNat (ip ++ fp))
      match r3 with
      | [] => some ⟨mantissa, -(Int.ofNat fp.length)⟩
      | 'e' :: r4 => (parseExpPart r4).map (fun ex => ⟨mantissa, ex - Int.ofNat fp.length⟩)
      | 'E' :: r4 => (parseExpPart r4).map (fun ex => ⟨mantissa, ex - Int.ofNat fp.length⟩)
      | _ => none
  | 'e' :: r4 => if ip.isEmpty then none else (parseExpPart r4).map (fun ex => ⟨Int.ofNat (digitsToNat ip), ex⟩)
  | 'E' :: r4 => if ip.isEmpty then none else (parseExpPart r4).map (fun ex => ⟨Int.ofNat (digitsToNat ip), ex⟩)
  | _ => none

/-- Signed float token. -/
def parseFloatTok (s : String) : Option Dec :=
  match s.data with
  | '-' :: r => (parseFloatCore r).map (fun d => ⟨-d.num, d.exp⟩)
  | '+' :: r => parseFloatCore r
  | l => parseFloatCore l

/-- The default pandas missing-value strings (read_csv na_values and the
strings to_numeric maps to NaN). -/
def naStrings : List String :=
  ["", "#N/A", "#N/A N/A", "#NA", "-1.#IND", "-1.#QNAN", "-NaN", "-nan",
   "1.#IND", "1.#QNAN", "<NA>", "N/A", "NA", "NULL", "NaN", "None", "n/a", "nan", "null"]

/-- Is this token one of the default missing-value strings? -/
def isNaTok (s : String) : Bool := naStrings.contains s

/-- ASCII lowercase of a character. -/
def charLower (c : Char) : Char :=
  if 'A' ≤ c ∧ c ≤ 'Z' then Char.ofNat (c.toNat + 32) else c

/-- ASCII lowercase of a token, for the case-insensitive infinity spellings. -/
def lowerTok (s : String) : String := String.mk (s.data.map charLower)

/-- Positive-infinity spellings accepted by the numeric conversion. -/
def posInfStrings : List String := ["inf", "+inf", "infinity", "+infinity"]

/-- Negative-infinity spellings accepted by the numeric conversion. -/
def negInfStrings : List String := ["-inf", "-infinity"]

/-- pd.to_numeric(errors = coerce) on one string token: missing-value
strings and unparseable tokens become NaN (returned here as none, since the
following dropna removes NaN either way), infinity spellings become the
infinities, and numeric literals their value. -/
def toNumericTok (s : String) : Option TwVal :=
  if isNaTok s then none
  else if posInfStrings.contains (lowerTok s) then some TwVal.pinf
  else if negInfStrings.contains (lowerTok s) then some TwVal.ninf
  else (parseFloatTok s).map TwVal.fin

/-- Length of a month, with leap years. -/
def monthDays (y m : Nat) : Nat :=
  if m = 2 then (if (y % 4 = 0 ∧ ¬ y % 100 = 0) ∨ y % 400 = 0 then 29 else 28)
  else if m = 4 ∨ m = 6 ∨ m = 9 ∨ m = 11 then 30 else 31

/-- Value of a two-digit pair. -/
def twoDigits (a b : Char) : Nat := (a.toNat - 48) * 10 + (b.toNat - 48)

/-- Strict parse of the fixed 12-digit timestamp pattern (4-digit year then
2-digit month, day, hour, minute), including calendar validation and the
representable-timestamp year range of the pandas 64-bit timestamps. -/
def parseTMstr (s : String) : Option DateTime :=
  match s.data with
  | [y1, y2, y3, y4, m1, m2, d1, d2, h1, h2, n1, n2] =>
    if [y1, y2, y3, y4, m1, m2, d1, d2, h1, h2, n1, n2].all Char.isDigit then
      let y := digitsToNat [y1, y2, y3, y4]
      let mo := twoDigits m1 m2
      let da := twoDigits d1 d2
      let ho := twoDigits h1 h2
      let mi := twoDigits n1 n2
      if 1678 ≤ y ∧ y ≤ 2261 ∧ 1 ≤ mo ∧ mo ≤ 12 ∧ 1 ≤ da ∧ da ≤ monthDays y mo ∧ ho ≤ 23 ∧ mi ≤ 59
      then some ⟨y, mo, da, ho, mi⟩ else none
    else none
  | _ => none

/-- pd.to_datetime(format the 12-digit pattern, errors = coerce) on one
cell.  Integer cells go through their decimal rendering, exactly as the
pandas strptime path stringifies non-string values; float cells render with
a fractional part or an exponent and never match the pattern; missing stays
missing. -/
def to_datetime_cell : Cell → Option DateTime
  | .na => none
  | .s v => parseTMstr v
  | .i n => parseTMstr (toString n)
  | .f _ => none

/-- pd.to_numeric(errors = coerce) on one cell.  Numeric cells are already
numbers; strings are parsed; missing stays missing. -/
def to_numeric_cell : Cell → Option TwVal
  | .na => none
  | .s v => toNumericTok v
  | .i n => some (TwVal.fin ⟨n, 0⟩)
  | .f v => some (TwVal.fin v)

/- ## Line handling (parse_kma_data, lines 36-43 of the source) -/

/-- Split on a separator character, keeping empty pieces (the shape of
str.split). -/
def splitKeep : List Char → List (List Char)
  | [] => [[]]
  | c :: cs =>
    if c = '\n' then [] :: splitKeep cs
    else
      match splitKeep cs with
      | [] => [[c]]
      | t :: ts => (c :: t) :: ts

/-- Python str.splitlines for LF-separated text: no trailing empty line,
and the empty string has no lines. -/
def pySplitlines (t : String) : List String :=
  match t.data with
  | [] => []
  | l =>
    let ps := splitKeep l
    (if ps.getLast? = some [] then ps.dropLast else ps).map String.mk

/-- line.strip().startswith(the hash mark): the first non-whitespace
character of the line is the comment mark. -/
def isCommentLine (l : String) : Bool :=
  match l.data.dropWhile Char.isWhitespace with
  | '#' :: _ => true
  | _ => false

/-- The non-comment lines the function keeps (source line 36). -/
def dataLines (t : String) : List String := (pySplitlines t).filter (fun l => !(isCommentLine l))

/- ## The read_csv call (source line 56) -/

/-- The 24 column names passed to read_csv (source lines 48-52). -/
def kmaColumns : List String :=
  ["TM", "STN", "WD", "WS", "GST_WD", "GST_WS", "PA", "PS",
   "PT", "TA", "TD", "HM", "PV", "RN", "R15", "R60",
   "R12", "R24", "WC", "WH", "WP", "WVE", "WVL", "TW"]

/-- Whitespace-run tokenizer with an accumulator (structural, so that
concrete witnesses evaluate in the kernel). -/
def tokensAux (p : Char → Bool) : List Char → List Char → List (List Char)
  | [], acc => if acc.isEmpty then [] else [acc.reverse]
  | c :: cs, acc =>
    if p c then
      (if acc.isEmpty then tokensAux p cs [] else acc.reverse :: tokensAux p cs [])
    else tokensAux p cs (c :: acc)

/-- delim_whitespace = True tokenization of one line: split on runs of
spaces and tabs. -/
def tokenize (s : String) : List String :=
  (tokensAux (fun c => c == ' ' || c == '\t') s.data []).map String.mk

/-- Token rows of the joined data lines; blank lines are skipped
(skip_blank_lines default). -/
def tokenRows (lines : List String) : List (List String) :=
  (lines.map tokenize).filter (fun r => !r.isEmpty)

/-- Align one token row to the 24 named columns: when the first row was
wider than the schema its extra leading fields are consumed as the implicit
index, and short rows are padded at the end with missing values. -/
def padCells (w0 : Nat) (r : List String) : List (Option String) :=
  ((r.drop (w0 - 24)).map some ++ List.replicate 24 none).take 24

/-- Column dtype after read_csv inference. -/
inductive Kind where
  | kint
  | kfloat
  | kobj
  deriving DecidableEq

/-- read_csv dtype inference for one column: int64 when every field is
present and an integer literal, float64 when every non-missing field is a
numeric literal, otherwise object (raw strings). -/
def kindOf (col : List (Option String)) : Kind :=
  let present := col.filterMap id
  let nonNa := present.filter (fun s => !(isNaTok s))
  if nonNa.all (fun s => (parseIntTok s).isSome) && present.length == col.length
      && nonNa.length == present.length then Kind.kint
  else if nonNa.all (fun s => (parseFloatTok s).isSome) then Kind.kfloat
  else Kind.kobj

/-- Materialize one cell at its inferred column dtype. -/
def mkCell (k : Kind) (t : Option String) : Cell :=
  match t with
  | none => Cell.na
  | some s =>
    if isNaTok s then Cell.na
    else
      match k with
      | Kind.kint =>
        match parseIntTok s with
        | some n => Cell.i n
        | none => Cell.na
      | Kind.kfloat =>
        match parseFloatTok s with
        | some v => Cell.f v
        | none => Cell.na
      | Kind.kobj => Cell.s s

/-- Align every token row to the 24 named columns, using the first row to
fix the implicit-index width. -/
def alignRows (r0 : List String) (rest : List (List String)) : List (List (Option String)) :=
  (r0 :: rest).map (padCells r0.length)

/-- Build the typed table from the aligned rows: each of the 24 columns
gets its inferred dtype, and each aligned field is materialized at it. -/
def buildTable (padded : List (List (Option String))) : List (List Cell) :=
  padded.map (fun r =>
    (List.range 24).map (fun j =>
      mkCell (kindOf (padded.map (fun rr => rr.getD j none))) (r.getD j none)))

/-- The pd.read_csv call of the source: header = None,
delim_whitespace = True, names = the 24 columns.  Raises (error) when no
token rows remain (EmptyDataError) or when some row is wider than both the
schema and the first row (the tokenizer abort); otherwise aligns every row
to the 24 names, padding short rows with missing values, and infers column
dtypes. -/
def readCsv (lines : List String) : Except Unit (List (List Cell)) :=
  match tokenRows lines with
  | [] => Except.error ()
  | r0 :: rest =>
    if (r0 :: rest).any (fun r => max 24 r0.length < r.length) then Except.error ()
    else Except.ok (buildTable (alignRows r0 rest))

/-- Does some token row exceed the width read_csv accepts (the wider of the
schema and the first row)? -/
def hasOverwideRow (lines : List String) : Bool :=
  match tokenRows lines with
  | [] => false
  | r0 :: rest => (r0 :: rest).any (fun r => max 24 r0.length < r.length)

/-- parse_kma_data (source lines 29-60): drop comment lines; with no line
left return the empty table; otherwise run read_csv, and catch any of its
exceptions, reporting the error and returning the empty table. -/
def parse_kma_data (t : String) : List (List Cell) :=
  if (dataLines t).isEmpty then []
  else
    match readCsv (dataLines t) with
    | Except.ok rows => rows
    | Except.error _ => []

/-- True when the except branch of parse_kma_data ran, that is when the
function displayed its parse-error message. -/
def parseErrorReported (t : String) : Bool :=
  if (dataLines t).isEmpty then false
  else
    match readCsv (dataLines t) with
    | Except.ok _ => false
    | Except.error _ => true

/- ## Projection and coercion (source lines 126-134) -/

/-- The TM cell of a row (column index 0). -/
def tmCell (r : List Cell) : Cell := r.getD 0 Cell.na

/-- The TW cell of a row (column index 23). -/
def twCell (r : List Cell) : Cell := r.getD 23 Cell.na

/-- df[[TM, TW]] (source line 126). -/
def result_select (rows : List (List Cell)) : List (Cell × Cell) :=
  rows.map (fun r => (tmCell r, twCell r))

/-- The two errors = coerce conversions (source lines 130-131): every
unconvertible value becomes a missing marker, and no row is added or
removed at this stage. -/
def result_coerced (rows : List (List Cell)) : List (Option DateTime × Option TwVal) :=
  (result_select rows).map (fun p => (to_datetime_cell p.1, to_numeric_cell p.2))

/-- dropna (source line 134): keep exactly the rows with both values
present. -/
def result_dropna (l : List (Option DateTime × Option TwVal)) : List (DateTime × TwVal) :=
  l.filterMap (fun p =>
    match p with
    | (some a, some b) => some (a, b)
    | _ => none)

/-- The full projection pipeline: select, coerce, dropna. -/
def project (rows : List (List Cell)) : List (DateTime × TwVal) :=
  result_dropna (result_coerced rows)

/-- One-row summary of the projection: the pair a row contributes, if it
survives. -/
def projRow (r : List Cell) : Option (DateTime × TwVal) :=
  match to_datetime_cell (tmCell r), to_numeric_cell (twCell r) with
  | some a, some b => some (a, b)
  | _, _ => none

/- ## The button handler (source lines 96-162) -/

/-- Outcome of the single HTTP GET: a response with status and decoded
body, or a transport-level failure. -/
inductive HttpOutcome where
  | resp (status : Nat) (body : String)
  | netError (msg : String)
  deriving DecidableEq

/-- The display state the handler ends in. -/
inductive Display where
  | missingKey
  | networkError (msg : String)
  | requestFailed (status : Nat) (raw : String)
  | noData (raw : String)
  | noValidData
  | success (table : List (DateTime × TwVal))
  deriving DecidableEq

/-- Does a display state render the chart and the data table? -/
def rendersOutput : Display → Bool
  | .success _ => true
  | _ => false

/-- Response handling (source lines 116-162): non-200 shows the status and
raw body; a 200 response is parsed, and an empty parse (or missing columns)
shows the raw body; an empty projection warns; otherwise the chart and
table render. -/
def handleResponse : HttpOutcome → Display
  | .netError m => Display.networkError m
  | .resp status body =>
    if status = 200 then
      let df := parse_kma_data body
      if !df.isEmpty && kmaColumns.contains "TW" && kmaColumns.contains "TM" then
        let res := project df
        if !res.isEmpty then Display.success res else Display.noValidData
      else Display.noData body
    else Display.requestFailed status body

/-- The button handler (source lines 96-98): an empty auth key
short-circuits to the missing-credentials message; otherwise exactly one
request is issued and its outcome handled.  The boolean records whether the
HTTP request was issued. -/
def clickQuery (authKey : String) (o : HttpOutcome) : Display × Bool :=
  if authKey = "" then (Display.missingKey, false) else (handleResponse o, true)

/- ## Concrete inputs used by witnesses and counterexamples -/

/-- A well-formed 24-token data line, whitespace-delimited. -/
def c1SpaceText : String := "1 2 3 4 5 6 7 8 9 10 11 12 13 14 15 16 17 18 19 20 21 22 23 24"

/-- The same 24 tokens, comma-delimited. -/
def c1CommaText : String := "1,2,3,4,5,6,7,8,9,10,11,12,13,14,15,16,17,18,19,20,21,22,23,24"

/-- A comment line followed by a 23-token data line. -/
def c2CounterText : String := "#h\n1 2 3 4 5 6 7 8 9 10 11 12 13 14 15 16 17 18 19 20 21 22 23"

/-- A 2-token first row followed by a 25-token row. -/
def c2OverwideText : String := "1 2\n1 2 3 4 5 6 7 8 9 10 11 12 13 14 15 16 17 18 19 20 21 22 23 24 25"

/-- A comment line followed by a 2-token data line. -/
def c2ShortText : String := "#c\n5 6"

/-- A 2-token data line of integer literals. -/
def c3Text : String := "7 8"

/-- A table row with a valid timestamp and the temperature token 12.5. -/
def c4Row1 : List Cell := Cell.s "202401010000" :: (List.replicate 22 Cell.na ++ [Cell.s "12.5"])

/-- A table row of only missing values. -/
def c4Row2 : List Cell := List.replicate 24 Cell.na

/-- A response whose first data row carries the temperature token inf and
whose second row is unconvertible in both columns. -/
def c5InfText : String :=
  "#ocean\n202401010000 a b c d e f g h i j k l m n o p q r s t u v inf\nx a b c d e f g h i j k l m n o p q r s t u v abc"

/-- A table row with a valid timestamp and the temperature token 3.5. -/
def c5Row : List Cell := Cell.s "202401010000" :: (List.replicate 22 Cell.na ++ [Cell.s "3.5"])

/-- Two comment lines, the second with leading whitespace. -/
def c6Text : String := "#a\n #b"

/-- A table row whose temperature token is the sentinel dash. -/
def c9Row : List Cell := List.replicate 23 (Cell.s "1") ++ [Cell.s "-"]

/-- A single blank non-comment line: kept by the comment filter but
yielding no token rows, so the reader raises EmptyDataError. -/
def c10Text : String := "\n"

/- ## Helper lemmas -/

/-- The staged projection pipeline is the row-wise filterMap. -/
theorem project_eq_filterMap (rows : List (List Cell)) :
    project rows = rows.filterMap projRow := by
  induction rows with
  | nil => rfl
  | cons r rs ih =>
    simp only [project, result_dropna, result_coerced, result_select, List.map_cons,
      List.filterMap_cons] at ih ⊢
    cases h1 : to_datetime_cell (tmCell r) <;> cases h2 : to_numeric_cell (twCell r) <;>
      (simp only [projRow, h1, h2]; rw [ih])

/-- A surviving projection pair records a successful conversion of both
selected cells of its source row. -/
theorem projRow_some_inv {r : List Cell} {p : DateTime × TwVal} (h : projRow r = some p) :
    to_datetime_cell (tmCell r) = some p.1 ∧ to_numeric_cell (twCell r) = some p.2 := by
  unfold projRow at h
  cases h1 : to_datetime_cell (tmCell r) <;> cases h2 : to_numeric_cell (twCell r) <;>
    rw [h1, h2] at h
  · cases h
  · cases h
  · cases h
  · have hp := Option.some.inj h
    subst hp
    exact ⟨rfl, rfl⟩

/-- Every row of the built table has exactly the 24 schema fields. -/
theorem buildTable_row_len (padded : List (List (Option String))) :
    ∀ row ∈ buildTable padded, row.length = 24 := by
  intro row hrow
  rcases List.mem_map.mp hrow with ⟨r, _, rfl⟩
  simp

/-- Equation for the read on an empty token-row list. -/
theorem readCsv_nil {lines : List String} (htr : tokenRows lines = []) :
    readCsv lines = Except.error () := by
  unfold readCsv
  rw [htr]

/-- Equation for the read on a nonempty token-row list. -/
theorem readCsv_cons (r0 : List String) (rest : List (List String)) (lines : List String)
    (htr : tokenRows lines = r0 :: rest) :
    readCsv lines =
      if (r0 :: rest).any (fun r => max 24 r0.length < r.length) then Except.error ()
      else Except.ok (buildTable (alignRows r0 rest)) := by
  unfold readCsv
  rw [htr]

/-- Equation for the overwide-row test on an empty token-row list. -/
theorem hasOverwideRow_nil {lines : List String} (htr : tokenRows lines = []) :
    hasOverwideRow lines = false := by
  unfold hasOverwideRow
  rw [htr]

/-- Equation for the overwide-row test on a nonempty token-row list. -/
theorem hasOverwideRow_cons (r0 : List String) (rest : List (List String)) (lines : List String)
    (htr : tokenRows lines = r0 :: rest) :
    hasOverwideRow lines = (r0 :: rest).any (fun r => max 24 r0.length < r.length) := by
  unfold hasOverwideRow
  rw [htr]

/-- A successful read yields only rows with the 24 schema fields. -/
theorem readCsv_row_len {lines : List String} {rows : List (List Cell)}
    (h : readCsv lines = Except.ok rows) : ∀ row ∈ rows, row.length = 24 := by
  cases htr : tokenRows lines with
  | nil => rw [readCsv_nil htr] at h; cases h
  | cons r0 rest =>
    rw [readCsv_cons r0 rest lines htr] at h
    by_cases hany : ((r0 :: rest).any fun r => max 24 r0.length < r.length) = true
    · rw [if_pos hany] at h; cases h
    · rw [if_neg hany] at h
      cases h
      exact buildTable_row_len _

/-- Nonempty token rows come from nonempty line lists. -/
theorem dataLines_isEmpty_false {t : String} {r0 : List String} {rest : List (List String)}
    (h : tokenRows (dataLines t) = r0 :: rest) : (dataLines t).isEmpty = false := by
  cases hd : dataLines t with
  | nil => rw [hd] at h; simp [tokenRows] at h
  | cons a as => rfl

/-- An overwide row makes the read raise. -/
theorem readCsv_error_of_overwide {lines : List String} (h : hasOverwideRow lines = true) :
    readCsv lines = Except.error () := by
  cases htr : tokenRows lines with
  | nil => exact readCsv_nil htr
  | cons r0 rest =>
    rw [hasOverwideRow_cons r0 rest lines htr] at h
    rw [readCsv_cons r0 rest lines htr, if_pos h]

/- ## Claim theorems -/

/-- Claim C1 (code bug): the function docstring and comments say the data
may be comma- or whitespace-delimited, but the read_csv call passes only
delim_whitespace = True, so a comma-delimited rendering of the same 24
tokens parses into a single raw-string field plus 23 missing values
instead of the 24 field values of the whitespace rendering. -/
theorem c1_comma_rendering_diverges :
    parse_kma_data c1CommaText = [Cell.s c1CommaText :: List.replicate 23 Cell.na] ∧
    parse_kma_data c1SpaceText = [(List.range 24).map (fun j => Cell.i (Int.ofNat (j + 1)))] ∧
    parse_kma_data c1CommaText ≠ parse_kma_data c1SpaceText := by
  refine ⟨by decide, by decide, by decide⟩

/-- Claim C2 counterexample: a non-comment data line with 23 tokens (one
fewer than the schema) does not abort the parse and reports no error; the
claim that any token-count mismatch aborts the whole-table parse is false
on the code. -/
theorem c2_short_row_no_abort :
    parse_kma_data c2CounterText ≠ [] ∧ parseErrorReported c2CounterText = false := by
  exact ⟨by decide, by decide⟩

/-- Claim C2 (amended): a data line with fewer tokens than the schema is
padded with missing values and the parse succeeds with no row dropped; the
whole-table parse aborts only when some line has more tokens than both the
schema and the first data line, and then the parser reports the error and
returns the empty table, after which the 200-handler displays the raw
response text and renders nothing further. -/
theorem c2_mismatch_policy (t : String) :
    (hasOverwideRow (dataLines t) = true →
      parse_kma_data t = [] ∧ parseErrorReported t = true ∧
      handleResponse (HttpOutcome.resp 200 t) = Display.noData t) ∧
    ((tokenRows (dataLines t)).isEmpty = false →
      (∀ r ∈ tokenRows (dataLines t), r.length ≤ 24) →
      parseErrorReported t = false ∧
      (parse_kma_data t).length = (tokenRows (dataLines t)).length ∧
      ∀ row ∈ parse_kma_data t, row.length = 24) := by
  constructor
  · intro hw
    obtain ⟨r0, rest, htr⟩ : ∃ r0 rest, tokenRows (dataLines t) = r0 :: rest := by
      cases htr : tokenRows (dataLines t) with
      | nil => rw [hasOverwideRow_nil htr] at hw; cases hw
      | cons r0 rest => exact ⟨r0, rest, rfl⟩
    have hde : (dataLines t).isEmpty = false := dataLines_isEmpty_false htr
    have herr : readCsv (dataLines t) = Except.error () := readCsv_error_of_overwide hw
    have hparse : parse_kma_data t = [] := by simp [parse_kma_data, hde, herr]
    refine ⟨hparse, by simp [parseErrorReported, hde, herr], ?_⟩
    simp [handleResponse, hparse]
  · intro hne hall
    cases htr : tokenRows (dataLines t) with
    | nil => rw [htr] at hne; simp at hne
    | cons r0 rest =>
      have hde : (dataLines t).isEmpty = false := dataLines_isEmpty_false htr
      rw [htr] at hall
      have h240 : r0.length ≤ 24 := hall r0 (List.mem_cons_self _ _)
      have hany : ((r0 :: rest).any fun r => max 24 r0.length < r.length) = false := by
        rw [List.any_eq_false]
        intro r hr
        simp only [decide_eq_true_eq]
        have hrle : r.length ≤ 24 := hall r hr
        omega
      have hok : readCsv (dataLines t) = Except.ok (buildTable (alignRows r0 rest)) := by
        rw [readCsv_cons r0 rest (dataLines t) htr,
          if_neg (by rw [hany]; exact Bool.false_ne_true)]
      have hparse : parse_kma_data t = buildTable (alignRows r0 rest) := by
        simp [parse_kma_data, hde, hok]
      refine ⟨by simp [parseErrorReported, hde, hok], ?_, ?_⟩
      · rw [hparse]
        simp [buildTable, alignRows]
      · rw [hparse]
        exact buildTable_row_len _

/-- Witness for the amended C2: a later 25-token row aborts the parse and
the 200-handler falls back to showing the raw text, while a 2-token row
parses with no error into a padded 24-field row. -/
theorem c2_mismatch_policy_witness :
    (parse_kma_data c2OverwideText = [] ∧ parseErrorReported c2OverwideText = true ∧
      handleResponse (HttpOutcome.resp 200 c2OverwideText) = Display.noData c2OverwideText) ∧
    parseErrorReported c2ShortText = false ∧
    (Cell.i 5 :: Cell.i 6 :: List.replicate 22 Cell.na).length = 24 :=
  ⟨(c2_mismatch_policy c2OverwideText).1 (by decide),
   ((c2_mismatch_policy c2ShortText).2 (by decide) (by decide)).1,
   ((c2_mismatch_policy c2ShortText).2 (by decide) (by decide)).2.2
     (Cell.i 5 :: Cell.i 6 :: List.replicate 22 Cell.na) (by decide)⟩

/-- Claim C3 counterexample: on a successful parse of integer tokens, the
stored field is the coerced number, not the raw string, because read_csv
infers column dtypes; the claim that fields stay raw strings is false on
the code. -/
theorem c3_fields_are_coerced :
    tmCell ((parse_kma_data c3Text).getD 0 []) = Cell.i 7 ∧
    Cell.isStr (Cell.i 7) = false := ⟨by decide, rfl⟩

/-- Claim C3 (amended): every row of a successful parse has all 24 named
fields present (missing-padded where the line was short); the values are
not guaranteed to be raw strings, since read_csv applies column-wise type
inference. -/
theorem c3_all_fields_present (t : String) :
    ∀ row ∈ parse_kma_data t, row.length = kmaColumns.length := by
  intro row hrow
  unfold parse_kma_data at hrow
  by_cases hde : (dataLines t).isEmpty = true
  · rw [if_pos hde] at hrow; cases hrow
  · rw [if_neg hde] at hrow
    cases hcsv : readCsv (dataLines t) with
    | error e => rw [hcsv] at hrow; cases hrow
    | ok rows =>
      rw [hcsv] at hrow
      have h24 : row.length = 24 := readCsv_row_len hcsv row hrow
      rw [h24]; rfl

/-- Witness for the amended C3 at a concrete short line. -/
theorem c3_all_fields_present_witness :
    (Cell.i 7 :: Cell.i 8 :: List.replicate 22 Cell.na).length = kmaColumns.length :=
  c3_all_fields_present c3Text (Cell.i 7 :: Cell.i 8 :: List.replicate 22 Cell.na) (by decide)

/-- Claim C4: the projection step coerces both selected columns without
dropping or raising (the coerced stage has exactly one entry per input
row, unconvertible values becoming missing markers), then dropna keeps, in
original order, exactly the rows whose two values are present, and every
emitted pair records a successfully converted timestamp and temperature of
its source row. -/
theorem c4_projection_contract (rows : List (List Cell)) :
    (result_coerced rows).length = rows.length ∧
    project rows = rows.filterMap projRow ∧
    ∀ p ∈ project rows, ∃ r, r ∈ rows ∧
      to_datetime_cell (tmCell r) = some p.1 ∧ to_numeric_cell (twCell r) = some p.2 := by
  refine ⟨by simp [result_coerced, result_select], project_eq_filterMap rows, ?_⟩
  intro p hp
  rw [project_eq_filterMap] at hp
  rcases List.mem_filterMap.mp hp with ⟨r, hr, he⟩
  rcases projRow_some_inv he with ⟨h1, h2⟩
  exact ⟨r, hr, h1, h2⟩

/-- Witness for C4 at a concrete two-row table. -/
theorem c4_projection_contract_witness :
    (result_coerced [c4Row1, c4Row2]).length = [c4Row1, c4Row2].length ∧
    project [c4Row1, c4Row2] = [c4Row1, c4Row2].filterMap projRow ∧
    ((⟨2024, 1, 1, 0, 0⟩, TwVal.fin ⟨125, -1⟩) : DateTime × TwVal) ∈ project [c4Row1, c4Row2] ∧
    ∃ r, r ∈ [c4Row1, c4Row2] ∧
      to_datetime_cell (tmCell r) = some ⟨2024, 1, 1, 0, 0⟩ ∧
      to_numeric_cell (twCell r) = some (TwVal.fin ⟨125, -1⟩) :=
  ⟨(c4_projection_contract _).1, (c4_projection_contract _).2.1, by decide,
   (c4_projection_contract _).2.2 ((⟨2024, 1, 1, 0, 0⟩, TwVal.fin ⟨125, -1⟩) : DateTime × TwVal)
     (by decide)⟩

/-- Claim C5 counterexample: the infinity token survives projection with an
infinite, hence non-finite, temperature, because to_numeric converts it to
infinity and dropna does not remove infinities; the claim that every
emitted row has a finite temperature is false on the code. -/
theorem c5_inf_not_finite :
    project (parse_kma_data c5InfText) = [((⟨2024, 1, 1, 0, 0⟩ : DateTime), TwVal.pinf)] ∧
    TwVal.finite TwVal.pinf = false := ⟨by decide, rfl⟩

/-- Claim C5 (amended): projection never increases the row count, and every
emitted row has a parseable timestamp and a non-missing numeric
temperature; the temperature need not be finite, since infinity tokens
convert to infinities which dropna keeps. -/
theorem c5_projection_shrinks (rows : List (List Cell)) :
    (project rows).length ≤ rows.length ∧
    ∀ p ∈ project rows, ∃ r, r ∈ rows ∧
      to_datetime_cell (tmCell r) = some p.1 ∧ to_numeric_cell (twCell r) ≠ none := by
  constructor
  · rw [project_eq_filterMap]
    exact List.length_filterMap_le _ _
  · intro p hp
    rw [project_eq_filterMap] at hp
    rcases List.mem_filterMap.mp hp with ⟨r, hr, he⟩
    rcases projRow_some_inv he with ⟨h1, h2⟩
    exact ⟨r, hr, h1, by rw [h2]; simp⟩

/-- Witness for the amended C5 at a concrete one-row table. -/
theorem c5_projection_shrinks_witness :
    (project [c5Row]).length ≤ [c5Row].length ∧
    ((⟨2024, 1, 1, 0, 0⟩, TwVal.fin ⟨35, -1⟩) : DateTime × TwVal) ∈ project [c5Row] ∧
    ∃ r, r ∈ [c5Row] ∧
      to_datetime_cell (tmCell r) = some ⟨2024, 1, 1, 0, 0⟩ ∧
      to_numeric_cell (twCell r) ≠ none :=
  ⟨(c5_projection_shrinks _).1, by decide,
   (c5_projection_shrinks _).2 ((⟨2024, 1, 1, 0, 0⟩, TwVal.fin ⟨35, -1⟩) : DateTime × TwVal)
     (by decide)⟩

/-- Claim C6: input that is empty or consists only of comment lines parses
to the empty table with no error reported. -/
theorem c6_comment_only_empty (t : String)
    (h : ∀ l ∈ pySplitlines t, isCommentLine l = true) :
    parse_kma_data t = [] ∧ parseErrorReported t = false := by
  have hd : dataLines t = [] := by
    unfold dataLines
    rw [List.filter_eq_nil_iff]
    intro l hl
    simp [h l hl]
  constructor <;> simp [parse_kma_data, parseErrorReported, hd]

/-- Witness for C6 at two comment lines. -/
theorem c6_comment_only_empty_witness :
    parse_kma_data c6Text = [] ∧ parseErrorReported c6Text = false :=
  c6_comment_only_empty c6Text (by decide)

/-- Claim C7: with an empty auth key the handler shows the
missing-credentials message and issues no HTTP request. -/
theorem c7_missing_key (k : String) (o : HttpOutcome) (h : k = "") :
    clickQuery k o = (Display.missingKey, false) := by
  subst h
  simp [clickQuery]

/-- Witness for C7. -/
theorem c7_missing_key_witness :
    clickQuery "" (HttpOutcome.resp 200 "body") = (Display.missingKey, false) :=
  c7_missing_key "" (HttpOutcome.resp 200 "body") rfl

/-- Claim C8: a response with status other than 200 lands in the
request-failed state carrying the status code and raw body, a state that
renders neither chart nor table. -/
theorem c8_http_failure (status : Nat) (body : String) (h : ¬ status = 200) :
    handleResponse (HttpOutcome.resp status body) = Display.requestFailed status body ∧
    rendersOutput (Display.requestFailed status body) = false :=
  ⟨by simp [handleResponse, h], rfl⟩

/-- Witness for C8 at a 404. -/
theorem c8_http_failure_witness :
    handleResponse (HttpOutcome.resp 404 "not found") = Display.requestFailed 404 "not found" ∧
    rendersOutput (Display.requestFailed 404 "not found") = false :=
  c8_http_failure 404 "not found" (by decide)

/-- Claim C9: a row whose water-temperature cell is the sentinel dash
contributes nothing to the projection: its row summary is missing, and
removing the row leaves the projected table unchanged. -/
theorem c9_dash_row_dropped (r : List Cell) (h : twCell r = Cell.s "-") :
    projRow r = none ∧
    ∀ pre post, project (pre ++ r :: post) = project (pre ++ post) := by
  have hnum : to_numeric_cell (twCell r) = none := by rw [h]; decide
  have hpr : projRow r = none := by
    unfold projRow
    rw [hnum]
    cases to_datetime_cell (tmCell r) <;> rfl
  refine ⟨hpr, fun pre post => ?_⟩
  rw [project_eq_filterMap, project_eq_filterMap, List.filterMap_append, List.filterMap_append]
  simp [List.filterMap_cons, hpr]

/-- Witness for C9 at a concrete sentinel row. -/
theorem c9_dash_row_dropped_witness :
    projRow c9Row = none ∧ project ([] ++ c9Row :: []) = project ([] ++ []) :=
  ⟨(c9_dash_row_dropped c9Row (by decide)).1, (c9_dash_row_dropped c9Row (by decide)).2 [] []⟩

/-- Claim C10: parse_kma_data is total: it either returns the successful
read or the empty table, and whenever the underlying read raises, the
exception is caught and the empty table returned. -/
theorem c10_parse_total (t : String) :
    (parse_kma_data t = [] ∨ readCsv (dataLines t) = Except.ok (parse_kma_data t)) ∧
    ∀ e, readCsv (dataLines t) = Except.error e → parse_kma_data t = [] := by
  by_cases hde : (dataLines t).isEmpty = true
  · exact ⟨Or.inl (by simp [parse_kma_data, hde]), fun e he => by simp [parse_kma_data, hde]⟩
  · cases hcsv : readCsv (dataLines t) with
    | ok rows =>
      refine ⟨Or.inr ?_, fun e he => ?_⟩
      · simp [parse_kma_data, hde, hcsv]
      · cases he
    | error e0 =>
      exact ⟨Or.inl (by simp [parse_kma_data, hde, hcsv]),
        fun e he => by simp [parse_kma_data, hde, hcsv]⟩

/-- Witness for C10 at a blank line, on which the reader raises. -/
theorem c10_parse_total_witness :
    readCsv (dataLines c10Text) = Except.error () ∧ parse_kma_data c10Text = [] :=
  ⟨rfl, (c10_parse_total c10Text).2 () rfl⟩

end SeaOndo
